import Mathlib

/-!
Shallow embedding of `local_search.py`: a retrieval-augmented answer pipeline
(search via a SearXNG RSS endpoint, per-URL cached page fetching with text
extraction, prompt assembly, local LLM generation).  External effects (HTTP,
feedparser, trafilatura, the postgres cache store) are modelled explicitly:
a fallible call returns `Except String α`, where `Except.error msg` models a
raised Python exception carrying message `msg`.  Code that catches an
exception pattern-matches on the `Except`; code with no handler propagates
the `Except.error` to its caller, exactly as an uncaught Python exception
would.
-/

deriving instance DecidableEq for Except

namespace LocalSearch

/-- MAX_RESULTS = 3 (module-level constant in local_search.py). -/
def MAX_RESULTS : Nat := 3

/-- One feed entry as exposed by feedparser: title, link, summary strings.
An absent link is modelled as the empty string, which the code guard
`if entry.link:` treats as falsy. -/
structure Entry where
  title : String
  link : String
  summary : String
deriving Repr, DecidableEq

/-- A parsed search-result dict produced by `parse_rss_results`:
keys "title", "url", "content" (the snippet text). -/
structure SearchRes where
  title : String
  url : String
  content : String
deriving Repr, DecidableEq

/-- The postgres `web_cache` table, plus a reachability flag: `ok = false`
models a store whose connections fail (every statement raises). -/
structure Store where
  ok : Bool
  table : List (String × String)
deriving Repr, DecidableEq

/-- SELECT content FROM web_cache WHERE url = %s (first matching row). -/
def lookupTable : List (String × String) → String → Option String
  | [], _ => none
  | (k, v) :: rest, url => if k = url then some v else lookupTable rest url

/-- INSERT ... ON CONFLICT (url) DO UPDATE: upsert of a row keyed by url. -/
def upsert : List (String × String) → String → String → List (String × String)
  | [], url, content => [(url, content)]
  | (k, v) :: rest, url, content =>
    if k = url then (url, content) :: rest else (k, v) :: upsert rest url content

/-- get_cached_content(url): reads the cached content for a url.  The Python
function has NO try/except: when the store is down the psycopg2 error
propagates, modelled by `Except.error`. -/
def get_cached_content (st : Store) (url : String) : Except String (Option String) :=
  if st.ok then .ok (lookupTable st.table url)
  else .error "could not connect to server"

/-- save_to_cache(url, content): upserts a row.  No try/except either: a
store-level failure raises (modelled by `Except.error`). -/
def save_to_cache (st : Store) (url content : String) : Except String Store :=
  if st.ok then .ok { st with table := upsert st.table url content }
  else .error "could not connect to server"

/-- Outcome of the `requests.get` to the SearXNG endpoint, after
`raise_for_status`: a 2xx body, a `requests.exceptions.RequestException`
(network/DNS/timeout failure or a 4xx/5xx from raise_for_status), or any
other exception raised during the request. -/
inductive SearchOutcome where
  | body (text : String)
  | requestExc (msg : String)
  | otherExc (msg : String)
deriving Repr, DecidableEq

/-- Outcome of the `requests.post` to the Ollama endpoint: an exception from
the request itself or from raise_for_status; a body that `.json()` cannot
parse; or a parsed JSON object whose "response" field is `some s` when
present and `none` when absent. -/
inductive LlmResp where
  | httpExc (msg : String)
  | badJson (msg : String)
  | jsonBody (response : Option String)
deriving Repr, DecidableEq

/-- The external world the pipeline talks to: `web url` is the outcome of
`requests.get(url)` (HTML body, or error for any network failure or bad
status); `extract html` is `trafilatura.extract` (`none` when no content is
extractable); `feed text` is `feedparser.parse` (`Except.error` models the
parse raising); `searchResp` is the outcome of the search request; `llm
prompt` is the outcome of the generation request. -/
structure Env where
  web : String → Except String String
  extract : String → Option String
  feed : String → Except String (List Entry)
  searchResp : SearchOutcome
  llm : String → LlmResp

/-- fetch_clean_text(url): GET the page, extract clean text; any exception
is caught and yields "", and a `None` extraction yields "" (`text or ""`). -/
def fetch_clean_text (env : Env) (url : String) : String :=
  match env.web url with
  | .error _ => ""
  | .ok html => (env.extract html).getD ""

/-- Python str.strip(): the string with leading and trailing whitespace
removed. -/
def pyStrip (s : String) : String :=
  ⟨((s.data.dropWhile Char.isWhitespace).reverse.dropWhile Char.isWhitespace).reverse⟩

/-- query_local_llm(prompt): on any raised exception (network, timeout,
non-2xx, unparseable JSON) returns the sentinel; otherwise
`resp.json().get("response", "").strip()`. -/
def query_local_llm (r : LlmResp) : String :=
  match r with
  | .httpExc _ => "Error generating answer."
  | .badJson _ => "Error generating answer."
  | .jsonBody resp => pyStrip (resp.getD "")

/-- The loop body of parse_rss_results: one result per entry whose link is
truthy (non-empty); entries with an empty link are skipped. -/
def collect_entries : List Entry → List SearchRes
  | [] => []
  | e :: rest =>
    if e.link ≠ "" then ⟨e.title, e.link, e.summary⟩ :: collect_entries rest
    else collect_entries rest

/-- parse_rss_results(rss_text): builds results from the parsed feed; the
surrounding try/except turns any raised error into the empty list. -/
def parse_rss_results (parsed : Except String (List Entry)) : List SearchRes :=
  match parsed with
  | .ok entries => collect_entries entries
  | .error _ => []

/-- scheme_chars of urllib.parse: letters, digits, and the characters
plus, minus, dot. -/
def scheme_chars (c : Char) : Bool :=
  c.isAlphanum || c == '+' || c == '-' || c == '.'

/-- True when the string starts with an ASCII letter. -/
def starts_alpha (s : String) : Bool :=
  match s.data with
  | [] => false
  | c :: _ => c.isAlpha

/-- The `scheme` component of urllib.parse.urlparse(url): the lowercased
text before the first colon, provided a colon exists at position > 0, the
first character is a letter, and every prefix character is a scheme
character; otherwise the empty string. -/
def urlparse_scheme (url : String) : String :=
  let pre : String := ⟨url.data.takeWhile (fun c => c != ':')⟩
  if pre.length < url.length && starts_alpha pre && pre.data.all scheme_chars then
    ⟨pre.data.map Char.toLower⟩
  else
    ""

/-- The retention guard of the orchestrator loop:
`if not url or not urlparse(url).scheme in ("http", "https"): continue` —
a result is retained iff its url is non-empty and its scheme is http/https. -/
def url_ok (url : String) : Bool :=
  url != "" && (urlparse_scheme url == "http" || urlparse_scheme url == "https")

/-- Result of the per-result fetch logic: the content used for the block,
the store afterwards, and whether a network fetch was attempted. -/
structure FetchOut where
  content : String
  store : Store
  netFetch : Bool
deriving Repr, DecidableEq

/-- Lines 152-159 of tavily_like_search, the inline Page Fetcher:
cache lookup first (`if not content` treats both NULL and "" as a miss);
on a miss, fetch_clean_text; a non-empty extraction is written back via
save_to_cache; an empty one falls back to the snippet or the fixed
placeholder.  Cache-store errors are NOT caught and propagate. -/
def fetchStep (env : Env) (st : Store) (url snippet : String) : Except String FetchOut :=
  match get_cached_content st url with
  | .error e => .error e
  | .ok cached =>
    let content := cached.getD ""
    if content ≠ "" then .ok ⟨content, st, false⟩
    else
      let fetched := fetch_clean_text env url
      if fetched ≠ "" then
        match save_to_cache st url fetched with
        | .error e => .error e
        | .ok st2 => .ok ⟨fetched, st2, true⟩
      else
        .ok ⟨if snippet ≠ "" then snippet else "No content available.", st, true⟩

/-- Python slicing s[:n]: the first n characters of s. -/
def pySlice (s : String) (n : Nat) : String := ⟨s.data.take n⟩

/-- Line 161: the per-result block appended to `contents`, with the content
truncated to 2000 characters. -/
def resultBlock (title url content : String) : String :=
  "Title: " ++ title ++ "\nURL: " ++ url ++ "\nContent: " ++ pySlice content 2000

/-- Result of the orchestrator's per-result loop: the collected blocks, the
store afterwards, the urls that reached the fetch logic, and how many
network fetches were attempted. -/
structure LoopOut where
  contents : List String
  store : Store
  attempted : List String
  netFetches : Nat
deriving Repr, DecidableEq

/-- Lines 143-161: the loop over the top results.  Results failing the url
guard are skipped (`continue`); each retained result runs the fetch logic
and contributes exactly one block. -/
def processResults (env : Env) : Store → List SearchRes → Except String LoopOut
  | st, [] => .ok ⟨[], st, [], 0⟩
  | st, r :: rest =>
    if url_ok r.url then
      match fetchStep env st r.url r.content with
      | .error e => .error e
      | .ok f =>
        match processResults env f.store rest with
        | .error e => .error e
        | .ok out =>
          .ok ⟨resultBlock r.title r.url f.content :: out.contents, out.store,
               r.url :: out.attempted,
               (if f.netFetch then 1 else 0) + out.netFetches⟩
    else processResults env st rest

/-- The fixed instruction header of the prompt f-string. -/
def promptHeader : String :=
  "Based on the following web search results, please answer the question.\nProvide a concise answer (2-4 sentences) and cite the facts using the provided URLs.\nIf the information is not present in the results, state that you could not find a relevant answer.\n\nWeb Results:\n"

/-- The assembled prompt: header, joined context, delimiter, question. -/
def buildPrompt (context query : String) : String :=
  promptHeader ++ context ++ "\n\n---\nQuestion: " ++ query ++ "\n\nAnswer:"

/-- The observable outcome of one orchestrator invocation: the returned
string, the store afterwards, the per-result blocks that went into the
prompt, how many generation calls were made, which urls reached the fetch
logic, and how many network fetches were attempted. -/
structure RunOut where
  answer : String
  store : Store
  blocks : List String
  llmCalls : Nat
  attempted : List String
  netFetches : Nat
deriving Repr, DecidableEq

/-- tavily_like_search(query): the Answer Orchestrator.  The try/except
covers only the search request (RequestException first, then any other
exception); empty results are terminal; the per-result loop runs next (its
cache-store errors are uncaught, hence `Except`); an empty `contents` list
is terminal; otherwise the prompt is assembled and the LLM called once. -/
def tavily_like_search (env : Env) (st : Store) (query : String) : Except String RunOut :=
  match env.searchResp with
  | .requestExc e => .ok ⟨"[!] Search request failed: " ++ e, st, [], 0, [], 0⟩
  | .otherExc e => .ok ⟨"[!] Search failed: " ++ e, st, [], 0, [], 0⟩
  | .body text =>
    let results := parse_rss_results (env.feed text)
    if results.isEmpty then .ok ⟨"No search results found.", st, [], 0, [], 0⟩
    else
      match processResults env st (results.take MAX_RESULTS) with
      | .error e => .error e
      | .ok out =>
        if out.contents.isEmpty then
          .ok ⟨"No usable content retrieved.", out.store, out.contents, 0,
               out.attempted, out.netFetches⟩
        else
          let context := String.intercalate "\n\n---\n\n" out.contents
          let prompt := buildPrompt context query
          .ok ⟨query_local_llm (env.llm prompt), out.store, out.contents, 1,
               out.attempted, out.netFetches⟩

/-! Concrete environments used to evaluate the pipeline on explicit inputs. -/

/-- A world whose cache store is down in which the search returns one
http result: used to exhibit store-error propagation. -/
def envC1 : Env :=
  { web := fun _ => .error "conn", extract := fun _ => none,
    feed := fun _ => .ok [⟨"T", "http://a.example/", "s"⟩],
    searchResp := .body "rss", llm := fun _ => .jsonBody (some "ans") }

/-- A world with one http result whose page fetch fails and whose snippet
is empty, while the LLM answers "LLMANSWER". -/
def envC2 : Env :=
  { web := fun _ => .error "conn", extract := fun _ => none,
    feed := fun _ => .ok [⟨"T", "http://a.example/", ""⟩],
    searchResp := .body "rss", llm := fun _ => .jsonBody (some "LLMANSWER") }

/-- A world whose search request raises a RequestException. -/
def envC3a : Env :=
  { web := fun _ => .ok "", extract := fun _ => none, feed := fun _ => .ok [],
    searchResp := .requestExc "conn refused", llm := fun _ => .jsonBody none }

/-- A world whose search request raises some non-RequestException error. -/
def envC3b : Env :=
  { web := fun _ => .ok "", extract := fun _ => none, feed := fun _ => .ok [],
    searchResp := .otherExc "boom", llm := fun _ => .jsonBody none }

/-- A world whose search succeeds with a feed holding no entries. -/
def envC3c : Env :=
  { web := fun _ => .ok "", extract := fun _ => none, feed := fun _ => .ok [],
    searchResp := .body "x", llm := fun _ => .jsonBody none }

/-- A world where every page fetch succeeds and extracts the text "X". -/
def envW6 : Env :=
  { web := fun _ => .ok "h", extract := fun _ => some "X", feed := fun _ => .ok [],
    searchResp := .body "", llm := fun _ => .jsonBody none }

/-- A world returning four results (one with a non-http scheme), with
failing page fetches. -/
def envW8 : Env :=
  { web := fun _ => .error "conn", extract := fun _ => none,
    feed := fun _ => .ok [⟨"A", "http://a/", "sa"⟩, ⟨"B", "ftp://b/", "sb"⟩,
                          ⟨"C", "http://c/", "sc"⟩, ⟨"D", "http://d/", "sd"⟩],
    searchResp := .body "t", llm := fun _ => .jsonBody (some "ans") }

/-- A world returning one result whose url has a non-http scheme. -/
def envW10 : Env :=
  { web := fun _ => .error "conn", extract := fun _ => none,
    feed := fun _ => .ok [⟨"B", "ftp://b/", "sb"⟩],
    searchResp := .body "t", llm := fun _ => .jsonBody (some "ans") }

/-! Helper lemmas about the embedded operations. -/

lemma get_cached_content_ok (st : Store) (url : String) (h : st.ok = true) :
    get_cached_content st url = .ok (lookupTable st.table url) := by
  simp [get_cached_content, h]

lemma save_to_cache_ok (st : Store) (url c : String) (h : st.ok = true) :
    save_to_cache st url c = .ok ⟨true, upsert st.table url c⟩ := by
  simp [save_to_cache, h]

lemma lookupTable_upsert (t : List (String × String)) (url c : String) :
    lookupTable (upsert t url c) url = some c := by
  induction t with
  | nil => simp [upsert, lookupTable]
  | cons kv rest ih =>
    by_cases h : kv.1 = url <;>
      simp [upsert, lookupTable, h, ih]

lemma fetchStep_ok (env : Env) (st : Store) (url sn : String) (h : st.ok = true) :
    ∃ f, fetchStep env st url sn = .ok f ∧ f.store.ok = true := by
  unfold fetchStep
  rw [get_cached_content_ok st url h]
  by_cases h1 : (lookupTable st.table url).getD "" ≠ ""
  · exact ⟨⟨(lookupTable st.table url).getD "", st, false⟩, by simp [h1], h⟩
  · by_cases h2 : fetch_clean_text env url ≠ ""
    · exact ⟨⟨fetch_clean_text env url, ⟨true, upsert st.table url (fetch_clean_text env url)⟩, true⟩,
        by simp [h1, h2, save_to_cache_ok st url _ h], rfl⟩
    · exact ⟨⟨if sn ≠ "" then sn else "No content available.", st, true⟩,
        by simp [h1, h2], h⟩

lemma processResults_ok (env : Env) : ∀ (rs : List SearchRes) (st : Store),
    st.ok = true →
    ∃ out, processResults env st rs = .ok out ∧ out.store.ok = true ∧
      out.contents.length = (rs.filter (fun r => url_ok r.url)).length ∧
      out.attempted = (rs.filter (fun r => url_ok r.url)).map (fun r => r.url)
  | [], st, h => ⟨⟨[], st, [], 0⟩, rfl, h, rfl, rfl⟩
  | r :: rest, st, h => by
    by_cases hu : url_ok r.url
    · obtain ⟨f, hf, hfok⟩ := fetchStep_ok env st r.url r.content h
      obtain ⟨out, hout, hok, hlen, hatt⟩ := processResults_ok env rest f.store hfok
      refine ⟨⟨resultBlock r.title r.url f.content :: out.contents, out.store,
               r.url :: out.attempted, (if f.netFetch then 1 else 0) + out.netFetches⟩,
             ?_, hok, ?_, ?_⟩
      · simp [processResults, hu, hf, hout]
      · simp [hu, hlen]
      · simp [hu, hatt]
    · obtain ⟨out, hout, hok, hlen, hatt⟩ := processResults_ok env rest st h
      exact ⟨out, by simp [processResults, hu, hout], hok,
             by simp [hu, hlen], by simp [hu, hatt]⟩

lemma fetchStep_down (env : Env) (st : Store) (url sn : String) (h : st.ok = false) :
    fetchStep env st url sn = .error "could not connect to server" := by
  simp [fetchStep, get_cached_content, h]

lemma processResults_down (env : Env) : ∀ (rs : List SearchRes) (st : Store),
    st.ok = false → (∃ r ∈ rs, url_ok r.url = true) →
    ∃ e, processResults env st rs = .error e
  | r :: rest, st, h, hex => by
    by_cases hu : url_ok r.url
    · exact ⟨"could not connect to server",
        by simp [processResults, hu, fetchStep_down env st r.url r.content h]⟩
    · obtain ⟨r2, hr2, hr2u⟩ := hex
      rcases List.mem_cons.mp hr2 with he | hrest
      · exact absurd (he ▸ hr2u) (by simpa using hu)
      · obtain ⟨e, hpe⟩ := processResults_down env rest st h ⟨r2, hrest, hr2u⟩
        exact ⟨e, by simp [processResults, hu, hpe]⟩

lemma processResults_all_empty (env : Env) : ∀ (rs : List SearchRes) (st : Store),
    st.ok = true →
    (∀ r ∈ rs, (lookupTable st.table r.url).getD "" = "" ∧
       fetch_clean_text env r.url = "" ∧ r.content = "") →
    processResults env st rs
      = .ok ⟨(rs.filter (fun r => url_ok r.url)).map
               (fun r => resultBlock r.title r.url "No content available."),
             st,
             (rs.filter (fun r => url_ok r.url)).map (fun r => r.url),
             (rs.filter (fun r => url_ok r.url)).length⟩
  | [], st, h, _ => rfl
  | r :: rest, st, h, hemp => by
    have hr := hemp r (List.mem_cons_self r rest)
    have hrest : ∀ r2 ∈ rest, (lookupTable st.table r2.url).getD "" = "" ∧
        fetch_clean_text env r2.url = "" ∧ r2.content = "" :=
      fun r2 hm => hemp r2 (List.mem_cons_of_mem r hm)
    have ih := processResults_all_empty env rest st h hrest
    by_cases hu : url_ok r.url
    · have hstep : fetchStep env st r.url r.content
          = .ok ⟨"No content available.", st, true⟩ := by
        unfold fetchStep
        rw [get_cached_content_ok st r.url h]
        simp [hr.1, hr.2.1, hr.2.2]
      simp [processResults, hu, hstep, ih]
      omega
    · simp [processResults, hu, ih]

lemma fetchStep_spec (env : Env) (st : Store) (url sn : String) (hok : st.ok = true) :
    fetchStep env st url sn =
      (if (lookupTable st.table url).getD "" ≠ "" then
        .ok ⟨(lookupTable st.table url).getD "", st, false⟩
      else if fetch_clean_text env url ≠ "" then
        .ok ⟨fetch_clean_text env url,
             ⟨true, upsert st.table url (fetch_clean_text env url)⟩, true⟩
      else
        .ok ⟨if sn ≠ "" then sn else "No content available.", st, true⟩) := by
  by_cases h1 : (lookupTable st.table url).getD "" ≠ ""
  · simp [fetchStep, get_cached_content_ok st url hok, h1]
  · by_cases h2 : fetch_clean_text env url ≠ ""
    · simp [fetchStep, get_cached_content_ok st url hok, h1, h2,
            save_to_cache_ok st url _ hok]
    · simp [fetchStep, get_cached_content_ok st url hok, h1, h2]

lemma collect_entries_eq (entries : List Entry) :
    collect_entries entries
      = (entries.filter (fun e => e.link != "")).map
          (fun e => ⟨e.title, e.link, e.summary⟩) := by
  induction entries with
  | nil => rfl
  | cons e rest ih =>
    by_cases h : e.link = "" <;> simp [collect_entries, h, ih]

/-! Claim theorems. -/

/-- Claim C3: for every query, a search-request failure (network error or
non-success status, i.e. a RequestException, or any other exception during
the request) or an empty parsed result sequence makes the orchestrator
return a terminal message immediately — the literal "No search results
found." for zero entries, and a string beginning "[!] Search request
failed: " (containing the word "failed") for a transport failure — as a
normal return (no raise), with no page fetch attempted (no url reaches the
fetch logic) and no generation call. -/
theorem c3_search_failure_terminal (env : Env) (st : Store) (q : String) :
    (∀ m, env.searchResp = .requestExc m →
       tavily_like_search env st q
         = .ok ⟨"[!] Search request failed: " ++ m, st, [], 0, [], 0⟩) ∧
    (∀ m, env.searchResp = .otherExc m →
       tavily_like_search env st q
         = .ok ⟨"[!] Search failed: " ++ m, st, [], 0, [], 0⟩) ∧
    (∀ t, env.searchResp = .body t → parse_rss_results (env.feed t) = [] →
       tavily_like_search env st q
         = .ok ⟨"No search results found.", st, [], 0, [], 0⟩) := by
  refine ⟨fun m hm => ?_, fun m hm => ?_, fun t ht hres => ?_⟩
  · simp [tavily_like_search, hm]
  · simp [tavily_like_search, hm]
  · simp [tavily_like_search, ht, hres]

/-- Witness for C3 at three concrete worlds: a refused connection, another
request-time error, and a successful request whose feed has no entries. -/
theorem c3_search_failure_terminal_witness :
    tavily_like_search envC3a ⟨true, []⟩ "q"
      = .ok ⟨"[!] Search request failed: conn refused", ⟨true, []⟩, [], 0, [], 0⟩ ∧
    tavily_like_search envC3b ⟨true, []⟩ "q"
      = .ok ⟨"[!] Search failed: boom", ⟨true, []⟩, [], 0, [], 0⟩ ∧
    tavily_like_search envC3c ⟨true, []⟩ "q"
      = .ok ⟨"No search results found.", ⟨true, []⟩, [], 0, [], 0⟩ :=
  ⟨by
    have h := (c3_search_failure_terminal envC3a ⟨true, []⟩ "q").1 "conn refused" rfl
    simpa using h,
   (c3_search_failure_terminal envC3b ⟨true, []⟩ "q").2.1 "boom" rfl,
   (c3_search_failure_terminal envC3c ⟨true, []⟩ "q").2.2 "x" rfl rfl⟩

/-- Claim C5: feed parsing never fails the whole search: from a parsed
document, each entry with a non-empty link yields exactly one result
carrying its title, link and summary (in order), entries without a link
are skipped, a partially-salvaged document contributes exactly its
salvaged entries, and only a parse that raises yields the empty
sequence. -/
theorem c5_feed_parsing_salvage (entries : List Entry) (m : String) :
    parse_rss_results (.ok entries)
      = (entries.filter (fun e => e.link != "")).map
          (fun e => ⟨e.title, e.link, e.summary⟩) ∧
    parse_rss_results (.error m) = [] :=
  ⟨collect_entries_eq entries, rfl⟩

/-- Claim C9: the content portion of every result block is the hard
character truncation content[:2000]: its length is min(L, 2000) (hence at
most 2000) and it is exactly the first min(L, 2000) characters of the
content. -/
theorem c9_truncation_bound (title url content : String) :
    resultBlock title url content
      = "Title: " ++ title ++ "\nURL: " ++ url ++ "\nContent: "
          ++ pySlice content 2000 ∧
    (pySlice content 2000).length = min 2000 content.length ∧
    (pySlice content 2000).length ≤ 2000 ∧
    (pySlice content 2000).data = content.data.take 2000 := by
  have hlen : (pySlice content 2000).length = (content.data.take 2000).length := rfl
  have hL : content.length = content.data.length := rfl
  refine ⟨rfl, ?_, ?_, rfl⟩
  · rw [hlen, List.length_take, hL]
  · rw [hlen, List.length_take]
    exact Nat.min_le_left _ _

/-- Counterexample to claim C1 (store errors caught inside the adapter,
pipeline completes by fetching live, never propagating): in a world whose
cache store is down and whose search returns one http result, the
orchestrator's result is a propagated store error — the uncaught psycopg2
exception escapes get_cached_content and aborts the whole pipeline instead
of degrading to a live fetch. -/
theorem c1_store_error_counterexample :
    tavily_like_search envC1 ⟨false, []⟩ "q"
      = .error "could not connect to server" := by decide

/-- Claim C1 as amended: store-level errors are NOT caught. When the store
is down, get_cached_content and save_to_cache both propagate the error,
and as soon as a retained (http/https) result reaches the fetch logic the
orchestrator itself propagates it instead of completing. -/
theorem c1_store_error_propagates (env : Env) (st : Store) (q t : String)
    (hb : env.searchResp = .body t) (hdown : st.ok = false)
    (hvalid : ∃ r ∈ (parse_rss_results (env.feed t)).take MAX_RESULTS,
       url_ok r.url = true) :
    (∀ u, get_cached_content st u = .error "could not connect to server") ∧
    (∀ u c, save_to_cache st u c = .error "could not connect to server") ∧
    ∃ e, tavily_like_search env st q = .error e := by
  refine ⟨fun u => by simp [get_cached_content, hdown],
          fun u c => by simp [save_to_cache, hdown], ?_⟩
  obtain ⟨e, he⟩ :=
    processResults_down env ((parse_rss_results (env.feed t)).take MAX_RESULTS) st
      hdown hvalid
  have hne : (parse_rss_results (env.feed t)).isEmpty = false := by
    obtain ⟨r, hr, _⟩ := hvalid
    have := List.mem_of_mem_take hr
    cases hres : parse_rss_results (env.feed t) with
    | nil => rw [hres] at this; cases this
    | cons a l => simp
  exact ⟨e, by simp [tavily_like_search, hb, hne, he]⟩

/-- Witness for the amended C1 at a concrete world: store down, one http
result; the pipeline returns the propagated store error. -/
theorem c1_store_error_propagates_witness :
    (∀ u, get_cached_content ⟨false, []⟩ u = .error "could not connect to server") ∧
    (∀ u c, save_to_cache ⟨false, []⟩ u c = .error "could not connect to server") ∧
    ∃ e, tavily_like_search envC1 ⟨false, []⟩ "q" = Except.error e :=
  c1_store_error_propagates envC1 ⟨false, []⟩ "q" "rss" rfl rfl
    ⟨⟨"T", "http://a.example/", "s"⟩, by decide, by decide⟩

/-- Counterexample to claim C2 (all retained results having empty fetched
content and empty snippet yields the terminal "No usable content
retrieved." with no generation call): in a world with exactly one retained
result whose page fetch yields "" and whose snippet is "", the
orchestrator instead builds a placeholder block, calls the LLM once, and
returns the LLM's answer "LLMANSWER". -/
theorem c2_placeholder_counterexample :
    fetch_clean_text envC2 "http://a.example/" = "" ∧
    tavily_like_search envC2 ⟨true, []⟩ "q"
      = .ok ⟨"LLMANSWER", ⟨true, []⟩,
             ["Title: T\nURL: http://a.example/\nContent: No content available."],
             1, ["http://a.example/"], 1⟩ := by decide

/-- Claim C2 as amended: when at least one retained result exists, empty
fetched content plus empty snippet does NOT produce the terminal message:
each retained result contributes the fixed placeholder block "No content
available." and the Generation Client is called exactly once. ("No usable
content retrieved." occurs only when no result survives the URL filter,
see C10.) -/
theorem c2_placeholder_generation (env : Env) (st : Store) (q t : String)
    (hb : env.searchResp = .body t) (hok : st.ok = true)
    (hempty : ∀ r ∈ (parse_rss_results (env.feed t)).take MAX_RESULTS,
       (lookupTable st.table r.url).getD "" = "" ∧
       fetch_clean_text env r.url = "" ∧ r.content = "")
    (hvalid : ∃ r ∈ (parse_rss_results (env.feed t)).take MAX_RESULTS,
       url_ok r.url = true) :
    ∃ out, tavily_like_search env st q = .ok out ∧ out.llmCalls = 1 ∧
      out.blocks
        = (((parse_rss_results (env.feed t)).take MAX_RESULTS).filter
            (fun r => url_ok r.url)).map
            (fun r => resultBlock r.title r.url "No content available.") := by
  have hproc := processResults_all_empty env
    ((parse_rss_results (env.feed t)).take MAX_RESULTS) st hok hempty
  have hne : (parse_rss_results (env.feed t)).isEmpty = false := by
    obtain ⟨r, hr, _⟩ := hvalid
    have := List.mem_of_mem_take hr
    cases hres : parse_rss_results (env.feed t) with
    | nil => rw [hres] at this; cases this
    | cons a l => simp
  have hfne : (((parse_rss_results (env.feed t)).take MAX_RESULTS).filter
      (fun r => url_ok r.url)) ≠ [] := by
    obtain ⟨r, hr, hru⟩ := hvalid
    exact List.ne_nil_of_mem (List.mem_filter.mpr ⟨hr, hru⟩)
  have hmne : (((parse_rss_results (env.feed t)).take MAX_RESULTS).filter
      (fun r => url_ok r.url)).map
        (fun r => resultBlock r.title r.url "No content available.") ≠ [] := by
    simpa using hfne
  refine ⟨⟨query_local_llm (env.llm (buildPrompt (String.intercalate "\n\n---\n\n"
        ((((parse_rss_results (env.feed t)).take MAX_RESULTS).filter
            (fun r => url_ok r.url)).map
          (fun r => resultBlock r.title r.url "No content available."))) q)),
      st,
      (((parse_rss_results (env.feed t)).take MAX_RESULTS).filter
          (fun r => url_ok r.url)).map
        (fun r => resultBlock r.title r.url "No content available."),
      1,
      (((parse_rss_results (env.feed t)).take MAX_RESULTS).filter
          (fun r => url_ok r.url)).map (fun r => r.url),
      (((parse_rss_results (env.feed t)).take MAX_RESULTS).filter
          (fun r => url_ok r.url)).length⟩,
    ?_, rfl, rfl⟩
  simp only [tavily_like_search, hb, hne, Bool.false_eq_true, if_false, hproc]
  simp [hmne, List.isEmpty_iff]

/-- Witness for the amended C2 at a concrete world: one retained http
result, page fetch failing, snippet empty — the orchestrator produces the
placeholder block and one generation call. -/
theorem c2_placeholder_generation_witness :
    ∃ out, tavily_like_search envC2 ⟨true, []⟩ "q" = .ok out ∧ out.llmCalls = 1 ∧
      out.blocks
        = (((parse_rss_results (envC2.feed "rss")).take MAX_RESULTS).filter
            (fun r => url_ok r.url)).map
            (fun r => resultBlock r.title r.url "No content available.") :=
  c2_placeholder_generation envC2 ⟨true, []⟩ "q" "rss" rfl rfl
    (by decide) ⟨⟨"T", "http://a.example/", ""⟩, by decide, by decide⟩

/-- Counterexample to claim C4 (any malformed generation response,
including a JSON body lacking the "response" field, yields the fixed
sentinel): a parsed JSON object with no "response" field makes
query_local_llm return the empty string, not the sentinel "Error
generating answer.". -/
theorem c4_missing_field_counterexample :
    query_local_llm (.jsonBody none) = "" ∧
    query_local_llm (.jsonBody none) ≠ "Error generating answer." := by decide

/-- Claim C4 as amended: the Generation Client never raises; on a network
error, timeout or non-success status, and on a body that is not parseable
JSON, it returns the fixed sentinel "Error generating answer."; but a
parsed JSON body lacking the "response" field yields the empty string (the
stripped default), not the sentinel. -/
theorem c4_sentinel_on_failure (m s : String) :
    query_local_llm (.httpExc m) = "Error generating answer." ∧
    query_local_llm (.badJson m) = "Error generating answer." ∧
    query_local_llm (.jsonBody none) = "" ∧
    query_local_llm (.jsonBody (some s)) = pyStrip s :=
  ⟨rfl, rfl, rfl, rfl⟩

/-- Claim C6: if a URL is absent from the cache (or cached empty), its
fetch extracts non-empty content c, the first fetch-step call performs a
network fetch, returns c and stores it; the second call on the same URL is
then served from the cache: it performs no network fetch and returns
exactly the same content c, leaving the store unchanged. -/
theorem c6_cache_idempotent (env : Env) (st : Store) (url sn sn2 c : String)
    (hok : st.ok = true)
    (hmiss : (lookupTable st.table url).getD "" = "")
    (hfetch : fetch_clean_text env url = c) (hc : c ≠ "") :
    fetchStep env st url sn = .ok ⟨c, ⟨true, upsert st.table url c⟩, true⟩ ∧
    fetchStep env ⟨true, upsert st.table url c⟩ url sn2
      = .ok ⟨c, ⟨true, upsert st.table url c⟩, false⟩ := by
  constructor
  · rw [fetchStep_spec env st url sn hok, if_neg (by simp [hmiss]), hfetch,
        if_pos hc]
  · rw [fetchStep_spec env ⟨true, upsert st.table url c⟩ url sn2 rfl,
        if_pos (by simp [lookupTable_upsert, hc])]
    simp [lookupTable_upsert]

/-- Witness for C6 at a concrete world: empty cache, a fetch extracting
"X"; the first call fetches and stores, the second is a pure cache hit. -/
theorem c6_cache_idempotent_witness :
    fetchStep envW6 ⟨true, []⟩ "http://a/" "s1"
      = .ok ⟨"X", ⟨true, [("http://a/", "X")]⟩, true⟩ ∧
    fetchStep envW6 ⟨true, [("http://a/", "X")]⟩ "http://a/" "s2"
      = .ok ⟨"X", ⟨true, [("http://a/", "X")]⟩, false⟩ :=
  c6_cache_idempotent envW6 ⟨true, []⟩ "http://a/" "s1" "s2" "X"
    rfl rfl rfl (by decide)

/-- Claim C7: across one fetch-step, either the store is unchanged, or it
was upserted under the processed URL with exactly the Content Extractor's
output (fetch_clean_text), and only when that output is non-empty — so an
empty extraction, a snippet, or the placeholder string is never written to
the cache. -/
theorem c7_cache_write_discipline (env : Env) (st : Store) (url sn : String)
    (f : FetchOut) (hok : st.ok = true)
    (h : fetchStep env st url sn = .ok f) :
    f.store = st ∨
      (fetch_clean_text env url ≠ "" ∧
       f.store = ⟨true, upsert st.table url (fetch_clean_text env url)⟩) := by
  rw [fetchStep_spec env st url sn hok] at h
  split_ifs at h with h1 h2 h3
  · cases h
    exact Or.inl rfl
  · cases h
    exact Or.inr ⟨h2, rfl⟩
  · cases h
    exact Or.inl rfl
  · cases h
    exact Or.inl rfl

/-- Witness for C7 at a concrete world where the fetch extracts "X": the
store was upserted with exactly that extractor output. -/
theorem c7_cache_write_discipline_witness :
    (⟨"X", ⟨true, [("http://a/", "X")]⟩, true⟩ : FetchOut).store = ⟨true, []⟩ ∨
      (fetch_clean_text envW6 "http://a/" ≠ "" ∧
       (⟨"X", ⟨true, [("http://a/", "X")]⟩, true⟩ : FetchOut).store
         = ⟨true, upsert (⟨true, []⟩ : Store).table "http://a/"
              (fetch_clean_text envW6 "http://a/")⟩) :=
  c7_cache_write_discipline envW6 ⟨true, []⟩ "http://a/" "sn"
    ⟨"X", ⟨true, [("http://a/", "X")]⟩, true⟩ rfl (by decide)

/-- Claim C8: for a search returning K > 3 results, exactly the first
MAX_RESULTS = 3 results in feed order are considered, regardless of K, and
among those exactly the ones whose URL is non-empty with an http/https
scheme reach the fetch logic — in order, as witnessed by the list of URLs
the loop attempted to fetch. -/
theorem c8_top3_url_filter (env : Env) (st : Store) (q t : String)
    (hb : env.searchResp = .body t) (hok : st.ok = true)
    (hK : MAX_RESULTS < (parse_rss_results (env.feed t)).length) :
    MAX_RESULTS = 3 ∧
    ∃ out, tavily_like_search env st q = .ok out ∧
      out.attempted
        = (((parse_rss_results (env.feed t)).take MAX_RESULTS).filter
            (fun r => url_ok r.url)).map (fun r => r.url) := by
  refine ⟨rfl, ?_⟩
  obtain ⟨out, hout, hsok, hlen, hatt⟩ :=
    processResults_ok env ((parse_rss_results (env.feed t)).take MAX_RESULTS) st hok
  have hne : (parse_rss_results (env.feed t)).isEmpty = false := by
    cases hres : parse_rss_results (env.feed t) with
    | nil => rw [hres] at hK; simp [MAX_RESULTS] at hK
    | cons a l => simp
  by_cases hce : out.contents.isEmpty
  · exact ⟨⟨"No usable content retrieved.", out.store, out.contents, 0,
        out.attempted, out.netFetches⟩,
      by simp [tavily_like_search, hb, hne, hout, hce], hatt⟩
  · exact ⟨⟨query_local_llm (env.llm (buildPrompt
          (String.intercalate "\n\n---\n\n" out.contents) q)),
        out.store, out.contents, 1, out.attempted, out.netFetches⟩,
      by simp [tavily_like_search, hb, hne, hout, hce], hatt⟩

/-- Witness for C8 at a concrete world returning four results whose second
url has scheme ftp: only the first three are considered and the ftp one is
discarded, so exactly the urls of results one and three are attempted. -/
theorem c8_top3_url_filter_witness :
    MAX_RESULTS = 3 ∧
    ∃ out, tavily_like_search envW8 ⟨true, []⟩ "q" = .ok out ∧
      out.attempted
        = (((parse_rss_results (envW8.feed "t")).take MAX_RESULTS).filter
            (fun r => url_ok r.url)).map (fun r => r.url) :=
  c8_top3_url_filter envW8 ⟨true, []⟩ "q" "t" rfl rfl (by decide)

/-- Claim C10: with a working store, every result surviving the URL filter
contributes exactly one block to the prompt, with the fallback chain
content, then snippet, then the fixed placeholder "No content available.";
and the terminal "No usable content retrieved." outcome (returned with no
generation call) happens if and only if no result among the first
MAX_RESULTS has a non-empty http/https URL. -/
theorem c10_block_per_retained_result (env : Env) (st : Store) (q t : String)
    (hb : env.searchResp = .body t) (hok : st.ok = true)
    (hne : parse_rss_results (env.feed t) ≠ []) :
    ∃ out, tavily_like_search env st q = .ok out ∧
      out.blocks.length
        = (((parse_rss_results (env.feed t)).take MAX_RESULTS).filter
            (fun r => url_ok r.url)).length ∧
      ((out.answer = "No usable content retrieved." ∧ out.llmCalls = 0) ↔
        ((parse_rss_results (env.feed t)).take MAX_RESULTS).filter
            (fun r => url_ok r.url) = []) ∧
      (∀ st2 url sn, st2.ok = true →
        (lookupTable st2.table url).getD "" = "" →
        fetch_clean_text env url = "" →
        fetchStep env st2 url sn
          = .ok ⟨if sn ≠ "" then sn else "No content available.", st2, true⟩) := by
  have hfb : ∀ st2 url sn, st2.ok = true →
      (lookupTable st2.table url).getD "" = "" →
      fetch_clean_text env url = "" →
      fetchStep env st2 url sn
        = .ok ⟨if sn ≠ "" then sn else "No content available.", st2, true⟩ := by
    intro st2 url sn h2 hm hf
    rw [fetchStep_spec env st2 url sn h2, if_neg (by simp [hm]),
        if_neg (by simp [hf])]
  obtain ⟨out, hout, hsok, hlen, hatt⟩ :=
    processResults_ok env ((parse_rss_results (env.feed t)).take MAX_RESULTS) st hok
  have hne2 : (parse_rss_results (env.feed t)).isEmpty = false := by
    cases hres : parse_rss_results (env.feed t) with
    | nil => exact absurd hres hne
    | cons a l => simp
  by_cases hce : out.contents.isEmpty
  · have hflt : ((parse_rss_results (env.feed t)).take MAX_RESULTS).filter
        (fun r => url_ok r.url) = [] := by
      have h0 : out.contents.length = 0 := by
        simpa [List.isEmpty_iff] using hce
      exact List.eq_nil_of_length_eq_zero (by omega)
    exact ⟨⟨"No usable content retrieved.", out.store, out.contents, 0,
        out.attempted, out.netFetches⟩,
      by simp [tavily_like_search, hb, hne2, hout, hce], hlen,
      by simp [hflt], hfb⟩
  · have hflt : ((parse_rss_results (env.feed t)).take MAX_RESULTS).filter
        (fun r => url_ok r.url) ≠ [] := by
      intro h0
      rw [h0] at hlen
      simp [List.isEmpty_iff, List.eq_nil_of_length_eq_zero hlen] at hce
    refine ⟨⟨query_local_llm (env.llm (buildPrompt
          (String.intercalate "\n\n---\n\n" out.contents) q)),
        out.store, out.contents, 1, out.attempted, out.netFetches⟩,
      by simp [tavily_like_search, hb, hne2, hout, hce], hlen, ?_, hfb⟩
    simp [hflt]

/-- Witness for C10 at a concrete world whose single result has an ftp
url: no result survives the filter, no block is built, and the terminal
message is returned with zero generation calls. -/
theorem c10_block_per_retained_result_witness :
    ∃ out, tavily_like_search envW10 ⟨true, []⟩ "q" = .ok out ∧
      out.blocks.length
        = (((parse_rss_results (envW10.feed "t")).take MAX_RESULTS).filter
            (fun r => url_ok r.url)).length ∧
      ((out.answer = "No usable content retrieved." ∧ out.llmCalls = 0) ↔
        ((parse_rss_results (envW10.feed "t")).take MAX_RESULTS).filter
            (fun r => url_ok r.url) = []) ∧
      (∀ st2 url sn, st2.ok = true →
        (lookupTable st2.table url).getD "" = "" →
        fetch_clean_text envW10 url = "" →
        fetchStep envW10 st2 url sn
          = .ok ⟨if sn ≠ "" then sn else "No content available.", st2, true⟩) :=
  c10_block_per_retained_result envW10 ⟨true, []⟩ "q" "t" rfl rfl (by decide)

end LocalSearch
